import Mathlib

/-!
Verification of the vibedb tool-calling agent core.

This file gives a shallow embedding, in Lean 4, of the repository code that
the specification describes:

* `src/agents/core/tools.py` — the `Tool` and `ToolCall` pydantic models;
* `src/agents/core/chat_context.py` — `ChatRole` and `ChatMessage`;
* `src/agents/core/agent_with_tools.py` — `AgentWithTools.__init__`,
  `AgentWithTools.astream`, `AgentWithTools._execute_tool_call` and
  `AgentWithTools._get_tools_from_decorated_methods`;
* `src/agents/builtins/agent_with_sql_tools.py` — the four tool-eligible
  SQL methods of `AgentWithSQLTools`.

Python exceptions are modelled with `Except`; pydantic field validation and
attribute lookup are modelled explicitly, because several properties of the
orchestration loop turn on exactly those semantics.  The model backend (the
`LLM.astream` oracle) is modelled as the finite list of stream passes it
would produce, each pass being the chunks yielded before either normal
completion or a transport failure (`BackendError`).
-/

namespace VibeDB

/-- Python exceptions that the embedded code can raise.  Every constructor
models a subclass of `Exception` (so a bare `except Exception` handler
catches each of them); `backendError` stands for the distinguished
transport/auth failure of the model backend described in the spec. -/
inductive PyExc where
  | attributeError (msg : String)
  | valueError (msg : String)
  | typeError (msg : String)
  | validationError (msg : String)
  | backendError
  | sqlAlchemyError (msg : String)
  | otherError (msg : String)
  deriving DecidableEq, Repr

/-- Python `str(e)` on a caught exception: the message it carries. -/
def pyExcStr : PyExc → String
  | .attributeError m => m
  | .valueError m => m
  | .typeError m => m
  | .validationError m => m
  | .backendError => "backend error"
  | .sqlAlchemyError m => m
  | .otherError m => m

/-- Python values appearing as tool-call argument values and as the return
value of a dispatched tool method (`str(result)` is applied to it). -/
inductive PyVal where
  | str (s : String)
  | int (n : Int)
  | bool (b : Bool)
  | none
  deriving DecidableEq, Repr

/-- Python `str` applied to a `PyVal`, as done by
`_execute_tool_call`'s final `return str(result)`. -/
def pyStr : PyVal → String
  | .str s => s
  | .int n => toString n
  | .bool b => if b then "True" else "False"
  | .none => "None"

/-- Keyword-argument dictionary `Dict[str, Any]` of a tool call. -/
abbrev Args := List (String × PyVal)

/-- Result of pydantic `create_model(f"{attr.__name__}Input", **fields)` in
`_get_tools_from_decorated_methods`, modelled structurally: the generated
model name and the field list (parameter name paired with its declared type
as text), the implicit `self` parameter excluded. -/
structure InputSchema where
  modelName : String
  fields : List (String × String)
  deriving DecidableEq, Repr

/-- The `Tool` pydantic model of `src/agents/core/tools.py`:
`name`, `description`, `input_schema`. -/
structure Tool where
  name : String
  description : String
  input_schema : InputSchema
  deriving DecidableEq, Repr

/-- The `ToolCall` pydantic model of `src/agents/core/tools.py`.  All four
fields are declared without defaults, hence required by pydantic at
construction; in particular `response : str` is required and non-optional.
There is no `name` field. -/
structure ToolCall where
  id : String
  tool : Tool
  args : Args
  response : String
  deriving DecidableEq, Repr

/-- Pydantic construction of a `ToolCall` from the keyword arguments
supplied: each of `id`, `tool`, `args`, `response` is a required field, so
omitting any of them raises a `ValidationError`. -/
def toolCallFromFields (i : Option String) (t : Option Tool) (ar : Option Args)
    (r : Option String) : Except PyExc ToolCall :=
  match i, t, ar, r with
  | some i, some t, some ar, some r =>
      Except.ok { id := i, tool := t, args := ar, response := r }
  | _, _, _, _ => Except.error (.validationError "ToolCall: Field required")

/-- Values a Python attribute lookup on a `ToolCall` can produce. -/
inductive AttrVal where
  | vStr (s : String)
  | vTool (t : Tool)
  | vArgs (a : Args)
  deriving DecidableEq, Repr

/-- Pydantic attribute lookup on a `ToolCall` instance: the four declared
fields resolve to their values; any other attribute name raises
`AttributeError` (pydantic `BaseModel.__getattr__` does not invent fields,
and the default model config discards unknown construction keywords). -/
def ToolCall.getAttrVal (tc : ToolCall) (attr : String) : Except PyExc AttrVal :=
  if attr = "id" then Except.ok (.vStr tc.id)
  else if attr = "tool" then Except.ok (.vTool tc.tool)
  else if attr = "args" then Except.ok (.vArgs tc.args)
  else if attr = "response" then Except.ok (.vStr tc.response)
  else Except.error (.attributeError
    ("\x27ToolCall\x27 object has no attribute \x27" ++ attr ++ "\x27"))

/-- The `ChatRole` enum of `src/agents/core/chat_context.py`: exactly the
three members `USER`, `ASSISTANT`, `SYSTEM` (there is no tool-result
member). -/
inductive ChatRole where
  | USER
  | ASSISTANT
  | SYSTEM
  deriving DecidableEq, Repr

/-- A value admitted by the `content : str | ToolCall` annotation of
`ChatMessage`: free text or a single tool call. -/
inductive MessageContent where
  | text (s : String)
  | toolCall (tc : ToolCall)
  deriving DecidableEq, Repr

/-- The `ChatMessage` pydantic model of `src/agents/core/chat_context.py`. -/
structure ChatMessage where
  role : ChatRole
  content : MessageContent
  deriving DecidableEq, Repr

/-- A Python value passed as the `content=` keyword when constructing a
`ChatMessage`.  `ofToolCallList` is the shape actually passed at
`agent_with_tools.py` line 40, where `content=tool_calls` is a *list* of
`ToolCall`. -/
inductive PyContentArg where
  | ofStr (s : String)
  | ofToolCall (tc : ToolCall)
  | ofToolCallList (tcs : List ToolCall)
  deriving DecidableEq, Repr

/-- Pydantic validation of the `content` value against the declared
annotation `str | ToolCall`: a string validates, a single `ToolCall`
validates, and a list of `ToolCall` matches neither union member, so it
raises a `ValidationError`. -/
def validateContent : PyContentArg → Except PyExc MessageContent
  | .ofStr s => Except.ok (.text s)
  | .ofToolCall tc => Except.ok (.toolCall tc)
  | .ofToolCallList _ =>
      Except.error (.validationError "ChatMessage.content: Input should be a valid string or ToolCall, got list")

/-- Construction `ChatMessage(role=..., content=...)`, with pydantic
validation of the content value. -/
def mkChatMessage (role : ChatRole) (arg : PyContentArg) : Except PyExc ChatMessage := do
  let c ← validateContent arg
  Except.ok { role := role, content := c }

/-- One method of an agent object, as seen by `dir(self)` /
`getattr(self, name)` / `inspect.signature`: its name, its `__doc__`
(absent or present), its parameter list (name paired with type annotation,
`self` excluded), whether the `is_tool` marker attribute is present on it,
and the effect of awaiting `method(**args)` — which either returns a value
or raises. -/
structure ToolMethod where
  name : String
  doc : Option String
  params : List (String × String)
  isTool : Bool
  run : Args → Except PyExc PyVal

/-- Modelled from the spec: the `tool` decorator is imported from
`agents.core.tools` by the SQL specialization but is absent from that file
in this snapshot of the repository.  Per the spec's tool-eligible method
convention, it marks a method as tool-eligible; the marker is the `is_tool`
attribute that `_get_tools_from_decorated_methods` tests with `hasattr`. -/
def toolDecorator (m : ToolMethod) : ToolMethod := { m with isTool := true }

/-- Python truthiness of a bound method object: always `True`, so the
`if not method:` guard in `_execute_tool_call` can never fire. -/
def ToolMethod.truthy (_ : ToolMethod) : Bool := true

/-- An agent object as the embedded core code observes it: its class name
(for error messages), the `instructions` passed to `__init__`, and its
methods in `dir(self)` enumeration order. -/
structure Agent where
  className : String
  instructions : String
  methods : List ToolMethod

/-- Attribute lookup `getattr(self, name)` restricted to methods: returns
the bound method, or raises `AttributeError` when no attribute of that name
exists (the two-argument form of `getattr` raises instead of returning
`None`). -/
def Agent.getMethod (a : Agent) (method_name : String) : Except PyExc ToolMethod :=
  match a.methods.find? (fun tm => tm.name = method_name) with
  | some tm => Except.ok tm
  | none => Except.error (.attributeError
      ("\x27" ++ a.className ++ "\x27 object has no attribute \x27" ++ method_name ++ "\x27"))

/-- Embedding of `AgentWithTools._get_tools_from_decorated_methods`
(`agent_with_tools.py` lines 54-67): walk the attributes, keep those
carrying the `is_tool` marker, and build for each a `Tool` whose name is
the method name, whose description is `attr.__doc__ or ""`, and whose
input schema is `create_model` applied to the non-`self` parameters. -/
def getToolsFromDecoratedMethods (a : Agent) : List Tool :=
  (a.methods.filter (fun m => m.isTool)).map (fun m =>
    { name := m.name
      description := m.doc.getD ""
      input_schema := { modelName := m.name ++ "Input", fields := m.params } })

/-- Embedding of `AgentWithTools.__init__` (`agent_with_tools.py` lines
14-17): the conversation store starts as the single `SYSTEM` message
holding the instructions, and the tool descriptor set is derived once. -/
structure AgentState where
  messages : List ChatMessage
  tools : List Tool
  deriving DecidableEq, Repr

/-- The state built by `AgentWithTools.__init__`. -/
def agentInit (a : Agent) : AgentState :=
  { messages := [{ role := ChatRole.SYSTEM, content := MessageContent.text a.instructions }]
    tools := getToolsFromDecoratedMethods a }

/-- Embedding of `AgentWithTools._execute_tool_call` (`agent_with_tools.py`
lines 44-52), line by line:
`method_name = tool_call.name` is a pydantic attribute lookup on a model
that has no `name` field; `method = getattr(self, method_name)` raises
`AttributeError` for a missing attribute (so the `if not method:` guard,
kept below, is dead code — a bound method is always truthy and its
`raise ValueError` branch is unreachable); `args` is the required `args`
field (the `is not None` alternative cannot fire); finally the method body
runs — with no surrounding `try`/`except`, so anything it raises
propagates — and the result is rendered with `str`. -/
def executeToolCall (a : Agent) (tc : ToolCall) : Except PyExc String := do
  let nameVal ← tc.getAttrVal "name"
  let method_name ← (match nameVal with
    | .vStr s => Except.ok s
    | _ => Except.error (.typeError "attribute name must be a string"))
  let m ← a.getMethod method_name
  if m.truthy = false then
    Except.error (.valueError
      ("Method \x27" ++ method_name ++ "\x27 not found on " ++ a.className))
  else do
    let args := tc.args
    let result ← m.run args
    Except.ok (pyStr result)

/-- One item of the model backend's stream, as `astream` partitions it with
`isinstance(chunk, ToolCall)`: a text fragment or a tool invocation. -/
inductive Chunk where
  | text (s : String)
  | tool (tc : ToolCall)
  deriving DecidableEq, Repr

/-- One streaming pass of the model backend: the chunks it yields, and
whether it then raises `BackendError` instead of completing normally
(`fails = true` models a transport failure after the listed prefix of
chunks, so an arbitrary failure point is covered by choosing the prefix). -/
structure StreamPass where
  chunks : List Chunk
  fails : Bool
  deriving DecidableEq, Repr

/-- An item yielded to the caller of `astream`: a text fragment (forwarded
immediately) or a completed tool call (forwarded after dispatch). -/
inductive Emitted where
  | text (s : String)
  | toolCall (tc : ToolCall)
  deriving DecidableEq, Repr

/-- Accumulation `response += chunk` over one pass (text chunks only,
in stream order). -/
def passText (chunks : List Chunk) : String :=
  chunks.foldl (fun acc c => match c with | .text s => acc ++ s | .tool _ => acc) ""

/-- Buffering `tool_calls.append(chunk)` over one pass, in stream order. -/
def passToolCalls (chunks : List Chunk) : List ToolCall :=
  chunks.filterMap (fun c => match c with | .tool tc => some tc | .text _ => none)

/-- The text fragments yielded to the caller during one pass, in order. -/
def passTextOutputs (chunks : List Chunk) : List Emitted :=
  chunks.filterMap (fun c => match c with | .text s => some (.text s) | .tool _ => none)

/-- Semantics of `asyncio.gather(*coros)` with its default
`return_exceptions=False`, completion order modelled as argument order:
if every awaitable succeeds the results are returned in argument order;
otherwise the first exception propagates and no result list is produced. -/
def gatherResults : List (Except PyExc String) → Except PyExc (List String)
  | [] => Except.ok []
  | Except.error e :: _ => Except.error e
  | Except.ok s :: rest =>
      match gatherResults rest with
      | Except.error e => Except.error e
      | Except.ok ss => Except.ok (s :: ss)

/-- The in-place writes `tool_call.response = tc_response` performed over
`zip(tool_calls, tc_responses)` (`agent_with_tools.py` lines 37-38). -/
def attachResponses (tcs : List ToolCall) (rs : List String) : List ToolCall :=
  (tcs.zip rs).map (fun p => { p.1 with response := p.2 })

/-- The outcome of one call to `astream`: the conversation store after the
call, the sequence of items yielded to the caller, the exception (if any)
that escaped the generator, and how many streaming passes were entered. -/
structure AstreamResult where
  messages : List ChatMessage
  outputs : List Emitted
  err : Option PyExc
  passes : Nat
  deriving DecidableEq, Repr

/-- Embedding of `AgentWithTools.astream` (`agent_with_tools.py` lines
19-42).  The model backend is supplied as the list of stream passes it
produces, one per streaming pass entered (an empty list means the backend
cannot produce a stream at all, i.e. an immediate `BackendError`).
Per pass: the caller-supplied message is appended first; the stream is
consumed, text fragments being yielded and accumulated and tool calls
buffered; if the stream raises, the exception escapes before anything else
happens; otherwise a non-empty accumulated text is appended as an
`ASSISTANT` turn; with no buffered tool calls the generator simply ends;
with buffered tool calls they are dispatched through `asyncio.gather`, the
completed calls are yielded, the synthetic message
`ChatMessage(role=ASSISTANT, content=tool_calls)` is constructed (a list
against the `str | ToolCall` annotation), and `astream` recurses on it. -/
def astream (a : Agent) : List StreamPass → List ChatMessage → ChatMessage → AstreamResult
  | [], msgs, msg =>
      { messages := msgs ++ [msg], outputs := [], err := some PyExc.backendError, passes := 0 }
  | p :: rest, msgs, msg =>
      let msgs1 := msgs ++ [msg]
      let response := passText p.chunks
      let tool_calls := passToolCalls p.chunks
      let textOuts := passTextOutputs p.chunks
      if p.fails then
        { messages := msgs1, outputs := textOuts, err := some PyExc.backendError, passes := 1 }
      else
        let msgs2 := if response = "" then msgs1
          else msgs1 ++ [{ role := ChatRole.ASSISTANT, content := MessageContent.text response }]
        if tool_calls.isEmpty then
          { messages := msgs2, outputs := textOuts, err := none, passes := 1 }
        else
          match gatherResults (tool_calls.map (executeToolCall a)) with
          | Except.error e =>
              { messages := msgs2, outputs := textOuts, err := some e, passes := 1 }
          | Except.ok rs =>
              let completed := attachResponses tool_calls rs
              let outs := textOuts ++ completed.map Emitted.toolCall
              match mkChatMessage ChatRole.ASSISTANT (.ofToolCallList completed) with
              | Except.error e =>
                  { messages := msgs2, outputs := outs, err := some e, passes := 1 }
              | Except.ok tcMsg =>
                  let r := astream a rest msgs2 tcMsg
                  { messages := r.messages, outputs := outs ++ r.outputs
                    err := r.err, passes := 1 + r.passes }

/-!
Embedding of the SQL specialization `AgentWithSQLTools`
(`src/agents/builtins/agent_with_sql_tools.py`).  The SQLAlchemy engine and
inspector are external capabilities; they are modelled as oracles that
either return a value or raise, and the four tool-eligible method bodies
are translated around them.  Each body is split into the code inside its
`try` block (`..._body`) and the wrapper applying its `except` handlers.
-/

/-- Result object of `connection.execute(text(query))` after fetching:
whether the statement returns rows, the fetched rows (cell values already
rendered, `none` standing for SQL NULL), the column names, and
`result.rowcount`. -/
structure QueryResult where
  returns_rows : Bool
  rows : List (List (Option String))
  columns : List String
  rowcount : Int
  deriving DecidableEq, Repr

/-- One entry of `inspector.get_columns(table_name)`: the always-present
`name` and `type` keys, and the optional `nullable` and `default` keys read
with `col.get(...)`. -/
structure ColumnInfo where
  name : String
  type : String
  nullable : Option Bool
  default : Option String
  deriving DecidableEq, Repr

/-- One entry of `inspector.get_foreign_keys(table_name)`. -/
structure FKInfo where
  constrained_columns : List String
  referred_table : String
  referred_columns : List String
  deriving DecidableEq, Repr

/-- One entry of `inspector.get_indexes(table_name)`. -/
structure IndexInfo where
  name : String
  column_names : List String
  unique : Option Bool
  deriving DecidableEq, Repr

/-- The database backend as the four tool methods use it: the combined
`engine.begin` / `execute` / fetch step, and the inspector introspection
calls.  Every operation may raise (any `Exception` subclass of the model,
`SQLAlchemyError` included). -/
structure SQLBackend where
  execQuery : String → Except PyExc QueryResult
  get_table_names : Except PyExc (List String)
  has_table : String → Except PyExc Bool
  get_columns : String → Except PyExc (List ColumnInfo)
  get_primary_keys : String → Except PyExc (List String)
  get_foreign_keys : String → Except PyExc (List FKInfo)
  get_indexes : String → Except PyExc (List IndexInfo)
  get_schema_names : Except PyExc (List String)

/-- Python `str` of a list of strings, as interpolated by the f-strings in
`describe_table` (repr of each element inside brackets). -/
def pyReprStrList (xs : List String) : String :=
  "[" ++ String.intercalate ", " (xs.map (fun s => "\x27" ++ s ++ "\x27")) ++ "]"

/-- The `try` block of `AgentWithSQLTools.execute_query` (lines 54-84):
run the query; for row-returning statements format header, separator and
rows (`NULL` for absent values), otherwise report the row count. -/
def execute_query_body (db : SQLBackend) (query : String) : Except PyExc String := do
  let result ← db.execQuery query
  if result.returns_rows then
    if result.rows.isEmpty then
      Except.ok "Query executed successfully. No rows returned."
    else
      let header := String.intercalate " | " result.columns
      let sep := String.mk (List.replicate header.length (Char.ofNat 45))
      let rowStrs := result.rows.map (fun row =>
        String.intercalate " | " (row.map (fun v => v.getD "NULL")))
      Except.ok (String.intercalate "\n" (header :: sep :: rowStrs))
  else
    Except.ok ("Query executed successfully. Rows affected: " ++ toString result.rowcount)

/-- `AgentWithSQLTools.execute_query` (lines 40-89): the `try` block with
its two handlers, `except SQLAlchemyError` first and `except Exception`
second, each returning an error string instead of propagating. -/
def execute_query (db : SQLBackend) (query : String) : Except PyExc String :=
  match execute_query_body db query with
  | Except.ok s => Except.ok s
  | Except.error (.sqlAlchemyError m) => Except.ok ("Error executing query: " ++ m)
  | Except.error e => Except.ok ("Unexpected error: " ++ pyExcStr e)

/-- The `try` block of `AgentWithSQLTools.list_tables` (lines 99-105). -/
def list_tables_body (db : SQLBackend) : Except PyExc String := do
  let tables ← db.get_table_names
  if tables.isEmpty then
    Except.ok "No tables found in the database."
  else
    Except.ok ("Tables in database:\n" ++
      String.intercalate "\n" (tables.map (fun t => "  - " ++ t)))

/-- `AgentWithSQLTools.list_tables` (lines 91-107): `try` block plus its
catch-all `except Exception` handler. -/
def list_tables (db : SQLBackend) : Except PyExc String :=
  match list_tables_body db with
  | Except.ok s => Except.ok s
  | Except.error e => Except.ok ("Error listing tables: " ++ pyExcStr e)

/-- The `try` block of `AgentWithSQLTools.describe_table` (lines 120-166):
existence check, then columns, primary keys, foreign keys and indexes,
assembled into the formatted report. -/
def describe_table_body (db : SQLBackend) (table_name : String) : Except PyExc String := do
  let ht ← db.has_table table_name
  if ht = false then
    Except.ok ("Table \x27" ++ table_name ++ "\x27 does not exist in the database.")
  else
    let columns ← db.get_columns table_name
    let primary_keys ← db.get_primary_keys table_name
    let foreign_keys ← db.get_foreign_keys table_name
    let indexes ← db.get_indexes table_name
    let colLines := columns.map (fun col =>
      let s0 := "  - " ++ col.name ++ ": " ++ col.type
      let s1 := if col.nullable = some false then s0 ++ " NOT NULL" else s0
      match col.default with
      | some d => s1 ++ " DEFAULT " ++ d
      | none => s1)
    let parts0 := ["Schema for table \x27" ++ table_name ++ "\x27:\n", "Columns:"] ++ colLines
    let parts1 := if primary_keys.isEmpty then parts0
      else parts0 ++ ["\nPrimary Keys: " ++ String.intercalate ", " primary_keys]
    let parts2 := if foreign_keys.isEmpty then parts1
      else parts1 ++ ["\nForeign Keys:"] ++ foreign_keys.map (fun fk =>
        "  - " ++ pyReprStrList fk.constrained_columns ++ " -> " ++
          fk.referred_table ++ "." ++ pyReprStrList fk.referred_columns)
    let parts3 := if indexes.isEmpty then parts2
      else parts2 ++ ["\nIndexes:"] ++ indexes.map (fun idx =>
        let s := "  - " ++ idx.name ++ ": " ++ pyReprStrList idx.column_names
        if idx.unique.getD false then s ++ " (UNIQUE)" else s)
    Except.ok (String.intercalate "\n" parts3)

/-- `AgentWithSQLTools.describe_table` (lines 109-168): `try` block plus
its catch-all `except Exception` handler. -/
def describe_table (db : SQLBackend) (table_name : String) : Except PyExc String :=
  match describe_table_body db table_name with
  | Except.ok s => Except.ok s
  | Except.error e => Except.ok ("Error describing table: " ++ pyExcStr e)

/-- The `try` block of `AgentWithSQLTools.list_schemas` (lines 178-184). -/
def list_schemas_body (db : SQLBackend) : Except PyExc String := do
  let schemas ← db.get_schema_names
  if schemas.isEmpty then
    Except.ok "No schemas found in the database."
  else
    Except.ok ("Schemas in database:\n" ++
      String.intercalate "\n" (schemas.map (fun s => "  - " ++ s)))

/-- `AgentWithSQLTools.list_schemas` (lines 170-186): `try` block plus its
catch-all `except Exception` handler. -/
def list_schemas (db : SQLBackend) : Except PyExc String :=
  match list_schemas_body db with
  | Except.ok s => Except.ok s
  | Except.error e => Except.ok ("Error listing schemas: " ++ pyExcStr e)

/-- A computation returned normally (Python: no exception escaped). -/
def returnsNormally (r : Except PyExc String) : Bool :=
  match r with
  | Except.ok _ => true
  | Except.error _ => false

/-!
Concrete fixtures: a small agent with one always-failing and one
always-succeeding tool method, and the corresponding tool calls as a model
backend adapter would construct them (pydantic requires every field, so
the adapter must initialize `response`, here with the empty string).
-/

/-- A tool method whose body always raises (`ValueError`). -/
def boomMethod : ToolMethod :=
  toolDecorator
    { name := "boom", doc := some "Always fails.", params := [], isTool := false
      run := fun _ => Except.error (.valueError "boom failed") }

/-- A tool method whose body always succeeds. -/
def steadyMethod : ToolMethod :=
  toolDecorator
    { name := "steady", doc := some "Always succeeds.", params := [], isTool := false
      run := fun _ => Except.ok (.str "ok") }

/-- A concrete agent carrying the two demo tool methods. -/
def demoAgent : Agent :=
  { className := "DemoAgent", instructions := "demo instructions"
    methods := [boomMethod, steadyMethod] }

/-- Descriptor for `boomMethod`. -/
def boomTool : Tool :=
  { name := "boom", description := "Always fails."
    input_schema := { modelName := "boomInput", fields := [] } }

/-- Descriptor for `steadyMethod`. -/
def steadyTool : Tool :=
  { name := "steady", description := "Always succeeds."
    input_schema := { modelName := "steadyInput", fields := [] } }

/-- Descriptor naming a method the agent does not have. -/
def ghostTool : Tool :=
  { name := "ghost", description := "No such method."
    input_schema := { modelName := "ghostInput", fields := [] } }

/-- Invocation of the failing tool. -/
def boomCall : ToolCall := { id := "call-1", tool := boomTool, args := [], response := "" }

/-- Invocation of the succeeding tool. -/
def steadyCall : ToolCall := { id := "call-2", tool := steadyTool, args := [], response := "" }

/-- A second invocation of the succeeding tool. -/
def steadyCallB : ToolCall := { id := "call-3", tool := steadyTool, args := [], response := "" }

/-- Invocation referencing an unregistered tool name. -/
def ghostCall : ToolCall := { id := "call-4", tool := ghostTool, args := [], response := "" }

/-- A caller-supplied user message. -/
def demoUserMsg : ChatMessage :=
  { role := ChatRole.USER, content := MessageContent.text "please run the tools" }

/-- The exception `tool_call.name` raises: `ToolCall` declares no `name`
field, so pydantic attribute lookup fails. -/
def nameAttrExc : PyExc :=
  PyExc.attributeError "\x27ToolCall\x27 object has no attribute \x27name\x27"

/-!
Helper lemmas about the dispatcher and the shape of the conversation store
after one call to `astream`.
-/

/-- Dispatch of any tool call by any agent raises `AttributeError` at its
first line, `method_name = tool_call.name`. -/
theorem executeToolCall_attr_error (a : Agent) (tc : ToolCall) :
    executeToolCall a tc = Except.error nameAttrExc := rfl

/-- Gathering the dispatches of a non-empty batch of tool calls propagates
that `AttributeError`. -/
theorem gather_exec_error (a : Agent) (tc : ToolCall) (tcs : List ToolCall) :
    gatherResults (executeToolCall a tc :: tcs.map (executeToolCall a)) =
      Except.error nameAttrExc := by
  simp [gatherResults, executeToolCall_attr_error, nameAttrExc]

/-- The conversation store after one pass of `astream`: the caller message
is always appended; an `ASSISTANT` text turn is appended exactly when the
accumulated text is non-empty and the stream did not fail; nothing else is
ever appended (the tool-call branch crashes inside `asyncio.gather` before
reaching its append). -/
theorem astream_cons_messages (a : Agent) (p : StreamPass) (rest : List StreamPass)
    (msgs : List ChatMessage) (msg : ChatMessage) :
    (astream a (p :: rest) msgs msg).messages =
      if p.fails then msgs ++ [msg]
      else if passText p.chunks = "" then msgs ++ [msg]
      else msgs ++ [msg] ++
        [{ role := ChatRole.ASSISTANT, content := MessageContent.text (passText p.chunks) }] := by
  by_cases hf : p.fails
  · simp [astream, hf]
  · by_cases ht : (passToolCalls p.chunks).isEmpty
    · by_cases hr : passText p.chunks = "" <;> simp [astream, hf, ht, hr]
    · obtain ⟨tc, tcs, hcons⟩ : ∃ tc tcs, passToolCalls p.chunks = tc :: tcs := by
        cases h : passToolCalls p.chunks with
        | nil => rw [h] at ht; simp at ht
        | cons x xs => exact ⟨x, xs, rfl⟩
      by_cases hr : passText p.chunks = "" <;>
        simp [astream, hf, ht, hr, hcons, gather_exec_error]

/-- Every call to `astream` only appends to the conversation store. -/
theorem astream_messages_extend (a : Agent) (passes : List StreamPass)
    (msgs : List ChatMessage) (msg : ChatMessage) :
    ∃ suffix, (astream a passes msgs msg).messages = msgs ++ suffix := by
  cases passes with
  | nil => exact ⟨[msg], rfl⟩
  | cons p rest =>
    rw [astream_cons_messages]
    by_cases hf : p.fails
    · exact ⟨[msg], by simp [hf]⟩
    · by_cases hr : passText p.chunks = ""
      · exact ⟨[msg], by simp [hf, hr]⟩
      · refine ⟨[msg, { role := ChatRole.ASSISTANT, content := MessageContent.text (passText p.chunks) }], ?_⟩
        simp [hf, hr]

/-!
The claims.
-/

/-- C1: for every finite model stream containing zero tool-invocation
chunks, a single `astream` call performs exactly one streaming pass, never
recurses, raises nothing, and appends exactly one `ASSISTANT` turn when the
accumulated text is non-empty and no `ASSISTANT` turn when it is empty. -/
theorem astream_no_invocations (a : Agent) (chunks : List Chunk) (rest : List StreamPass)
    (msgs : List ChatMessage) (msg : ChatMessage) (h : passToolCalls chunks = []) :
    (astream a ({ chunks := chunks, fails := false } :: rest) msgs msg).passes = 1 ∧
    (astream a ({ chunks := chunks, fails := false } :: rest) msgs msg).err = none ∧
    (astream a ({ chunks := chunks, fails := false } :: rest) msgs msg).messages =
      (if passText chunks = "" then msgs ++ [msg]
       else msgs ++ [msg] ++
         [{ role := ChatRole.ASSISTANT, content := MessageContent.text (passText chunks) }]) := by
  have ht : (passToolCalls chunks).isEmpty = true := by simp [h]
  refine ⟨?_, ?_, ?_⟩ <;>
    by_cases hr : passText chunks = "" <;>
      simp [astream, ht, hr]

/-- Witness for C1 at a concrete one-pass stream of a single text chunk. -/
theorem astream_no_invocations_witness :
    (astream demoAgent [{ chunks := [Chunk.text "hi"], fails := false }] [] demoUserMsg).passes = 1 ∧
    (astream demoAgent [{ chunks := [Chunk.text "hi"], fails := false }] [] demoUserMsg).err = none ∧
    (astream demoAgent [{ chunks := [Chunk.text "hi"], fails := false }] [] demoUserMsg).messages =
      (if passText [Chunk.text "hi"] = "" then [] ++ [demoUserMsg]
       else [] ++ [demoUserMsg] ++
         [{ role := ChatRole.ASSISTANT, content := MessageContent.text (passText [Chunk.text "hi"]) }]) :=
  astream_no_invocations demoAgent [Chunk.text "hi"] [] [] demoUserMsg rfl

/-- C2 (code bug): the dispatcher does not convert tool-body exceptions
into textual results.  `_execute_tool_call` has no `try`/`except` at all
and in fact raises `AttributeError` on its first line for every invocation
(`ToolCall` has no `name` field); with two sibling invocations in one
turn, `asyncio.gather` propagates the exception, the generator aborts,
and neither sibling's completed invocation is ever yielded. -/
theorem tool_body_exception_crashes_dispatch :
    executeToolCall demoAgent boomCall = Except.error nameAttrExc ∧
    (astream demoAgent [{ chunks := [Chunk.tool boomCall, Chunk.tool steadyCall], fails := false }]
      (agentInit demoAgent).messages demoUserMsg).err = some nameAttrExc ∧
    (astream demoAgent [{ chunks := [Chunk.tool boomCall, Chunk.tool steadyCall], fails := false }]
      (agentInit demoAgent).messages demoUserMsg).outputs = [] :=
  ⟨rfl, rfl, rfl⟩

/-- C3 (code bug): dispatch of an invocation referencing an unregistered
tool name raises instead of returning an error-valued result: the first
line already raises `AttributeError`, and even the name-resolution step
itself (`getattr(self, method_name)` with no default) raises
`AttributeError` for a missing method rather than returning a value, so
the guarded `ValueError` path is unreachable and no error string is ever
produced. -/
theorem unknown_tool_dispatch_raises :
    executeToolCall demoAgent ghostCall = Except.error nameAttrExc ∧
    returnsNormally (executeToolCall demoAgent ghostCall) = false ∧
    Agent.getMethod demoAgent "ghost" =
      Except.error (PyExc.attributeError
        "\x27DemoAgent\x27 object has no attribute \x27ghost\x27") :=
  ⟨rfl, rfl, rfl⟩

/-- C4 (code bug): a streaming pass ending with a pending tool invocation
does not append a tool-result turn and does not recurse: dispatch raises
`AttributeError` first, so the call ends after one pass with only the
caller turn and the `ASSISTANT` text turn appended; moreover the synthetic
turn the code would build, `ChatMessage(role=ASSISTANT, content=tool_calls)`,
passes a list where the declared type admits only `str | ToolCall`, so its
construction raises `ValidationError` (and `ChatRole` has no `TOOL_RESULT`
member at all). -/
theorem pending_invocations_no_tool_result_turn :
    (astream demoAgent [{ chunks := [Chunk.text "thinking ", Chunk.tool boomCall], fails := false }]
      (agentInit demoAgent).messages demoUserMsg).err = some nameAttrExc ∧
    (astream demoAgent [{ chunks := [Chunk.text "thinking ", Chunk.tool boomCall], fails := false }]
      (agentInit demoAgent).messages demoUserMsg).passes = 1 ∧
    (astream demoAgent [{ chunks := [Chunk.text "thinking ", Chunk.tool boomCall], fails := false }]
      (agentInit demoAgent).messages demoUserMsg).messages =
      [{ role := ChatRole.SYSTEM, content := MessageContent.text "demo instructions" },
       demoUserMsg,
       { role := ChatRole.ASSISTANT, content := MessageContent.text "thinking " }] ∧
    validateContent (PyContentArg.ofToolCallList [boomCall]) =
      Except.error (.validationError
        "ChatMessage.content: Input should be a valid string or ToolCall, got list") :=
  ⟨rfl, rfl, rfl, rfl⟩

/-- C5 (code bug): a batch of N pending invocations does not yield N
correlated results: even when every referenced method exists and would
succeed, `gatherResults` over the dispatcher propagates the
`AttributeError` raised by `tool_call.name`, so zero results are produced
and zero completed invocations are yielded to the caller. -/
theorem dispatch_yields_zero_results :
    gatherResults ([steadyCall, steadyCallB].map (executeToolCall demoAgent)) =
      Except.error nameAttrExc ∧
    (astream demoAgent [{ chunks := [Chunk.tool steadyCall, Chunk.tool steadyCallB], fails := false }]
      [] demoUserMsg).outputs = [] :=
  ⟨rfl, rfl⟩

/-- C6: the conversation store starts as the single `SYSTEM` turn built at
construction, every `astream` call only appends turns to it (no existing
turn is mutated, replaced or removed), and hence its first entry is the
`SYSTEM` turn forever. -/
theorem conversation_store_append_only (a : Agent) (passes : List StreamPass)
    (msgs : List ChatMessage) (msg : ChatMessage) :
    (agentInit a).messages =
      [{ role := ChatRole.SYSTEM, content := MessageContent.text a.instructions }] ∧
    (∃ suffix, (astream a passes msgs msg).messages = msgs ++ suffix) ∧
    ((astream a passes (agentInit a).messages msg).messages).head? =
      some { role := ChatRole.SYSTEM, content := MessageContent.text a.instructions } := by
  refine ⟨rfl, astream_messages_extend a passes msgs msg, ?_⟩
  obtain ⟨suffix, hs⟩ := astream_messages_extend a passes (agentInit a).messages msg
  rw [hs]
  simp [agentInit]

/-- C7: deriving the tool descriptor set twice from the same agent (same
method table) yields the same names, descriptions and input schemas. -/
theorem tool_descriptor_derivation_idempotent (a b : Agent) (h : a.methods = b.methods) :
    (getToolsFromDecoratedMethods a).map Tool.name =
      (getToolsFromDecoratedMethods b).map Tool.name ∧
    (getToolsFromDecoratedMethods a).map Tool.description =
      (getToolsFromDecoratedMethods b).map Tool.description ∧
    (getToolsFromDecoratedMethods a).map Tool.input_schema =
      (getToolsFromDecoratedMethods b).map Tool.input_schema := by
  unfold getToolsFromDecoratedMethods
  rw [h]
  exact ⟨rfl, rfl, rfl⟩

/-- Witness for C7 on the concrete demo agent. -/
theorem tool_descriptor_derivation_idempotent_witness :
    (getToolsFromDecoratedMethods demoAgent).map Tool.name =
      (getToolsFromDecoratedMethods demoAgent).map Tool.name ∧
    (getToolsFromDecoratedMethods demoAgent).map Tool.description =
      (getToolsFromDecoratedMethods demoAgent).map Tool.description ∧
    (getToolsFromDecoratedMethods demoAgent).map Tool.input_schema =
      (getToolsFromDecoratedMethods demoAgent).map Tool.input_schema :=
  tool_descriptor_derivation_idempotent demoAgent demoAgent rfl

/-- C8: when the model backend's stream raises `BackendError` after any
prefix of chunks, the `astream` call fails terminally after that single
pass, and the conversation store is left in its last consistent state:
only the already-supplied caller turn was appended, and no `ASSISTANT`
turn built from the partially accumulated text (nor any other turn) is
committed. -/
theorem backend_error_leaves_store_consistent (a : Agent) (chunks : List Chunk)
    (rest : List StreamPass) (msgs : List ChatMessage) (msg : ChatMessage) :
    (astream a ({ chunks := chunks, fails := true } :: rest) msgs msg).err =
      some PyExc.backendError ∧
    (astream a ({ chunks := chunks, fails := true } :: rest) msgs msg).messages =
      msgs ++ [msg] ∧
    (astream a ({ chunks := chunks, fails := true } :: rest) msgs msg).passes = 1 := by
  refine ⟨?_, ?_, ?_⟩ <;> simp [astream]

/-- C9 (counterexample): the `result` field is not absent before dispatch:
`ToolCall.response` is a required pydantic field, so constructing an
invocation without it raises `ValidationError`, and the concrete
pre-dispatch invocation `boomCall` already carries a present (empty)
response. -/
theorem tool_call_response_required_counterexample :
    toolCallFromFields (some "call-9") (some boomTool) (some []) none =
      Except.error (PyExc.validationError "ToolCall: Field required") ∧
    boomCall.response = "" :=
  ⟨rfl, rfl⟩

/-- C9 (amended): a `ToolCall`'s `response` field is required at
construction — pydantic rejects an invocation lacking it — so it is
present (adapter-initialized) before dispatch rather than absent; when the
loop attaches dispatch results over `zip(tool_calls, tc_responses)`, each
buffered invocation's response is overwritten exactly once with the result
at its own position. -/
theorem tool_call_response_present_then_overwritten (i : String) (t : Tool) (ar : Args)
    (tcs : List ToolCall) (rs : List String) (h : tcs.length = rs.length) :
    toolCallFromFields (some i) (some t) (some ar) none =
      Except.error (PyExc.validationError "ToolCall: Field required") ∧
    (attachResponses tcs rs).map ToolCall.response = rs := by
  refine ⟨rfl, ?_⟩
  induction tcs generalizing rs with
  | nil =>
    cases rs with
    | nil => rfl
    | cons r rs => exact absurd h (by simp)
  | cons tc tcs ih =>
    cases rs with
    | nil => exact absurd h (by simp)
    | cons r rs =>
      have h2 : tcs.length = rs.length := by simpa using h
      show r :: (attachResponses tcs rs).map ToolCall.response = r :: rs
      rw [ih rs h2]

/-- Witness for C9's amended statement at concrete inputs. -/
theorem tool_call_response_present_then_overwritten_witness :
    toolCallFromFields (some "call-9w") (some boomTool) (some []) none =
      Except.error (PyExc.validationError "ToolCall: Field required") ∧
    (attachResponses [boomCall] ["done"]).map ToolCall.response = ["done"] :=
  tool_call_response_present_then_overwritten "call-9w" boomTool [] [boomCall] ["done"] rfl

/-- C10: each of the four tool-eligible methods of the SQL specialization
wraps its whole body in `try`/`except Exception`, so for every database
backend behaviour and every input it returns a string (a formatted result
or a rendered error message) and never lets an exception escape into the
dispatcher. -/
theorem sql_tool_methods_never_raise (db : SQLBackend) (query table_name : String) :
    returnsNormally (execute_query db query) = true ∧
    returnsNormally (list_tables db) = true ∧
    returnsNormally (describe_table db table_name) = true ∧
    returnsNormally (list_schemas db) = true := by
  refine ⟨?_, ?_, ?_, ?_⟩
  · unfold execute_query
    cases hb : execute_query_body db query with
    | ok s => rfl
    | error e => cases e <;> rfl
  · unfold list_tables
    cases hb : list_tables_body db with
    | ok s => rfl
    | error e => rfl
  · unfold describe_table
    cases hb : describe_table_body db table_name with
    | ok s => rfl
    | error e => rfl
  · unfold list_schemas
    cases hb : list_schemas_body db with
    | ok s => rfl
    | error e => rfl

end VibeDB
